import Mathlib

/-!
Verification of the Winix integration's `manager.py`
(`custom_components/winix/manager.py`): the `WinixManager` setup and
refresh-cycle logic and the `WinixEntity` adapter, shallowly embedded in
Lean 4.  Code outside `manager.py` (the device wrapper, the account-service
helper, the domain constant) is an external collaborator from this module's
point of view; those parts are modelled from the specification and say so
in their doc comments.
-/

/-- Opaque per-device state snapshot fetched by a wrapper refresh: whatever
attribute set the vendor API reports.  Its contents are never inspected by
the manager layer. -/
abbrev DeviceState := List (String × String)

/-- Modelled from the spec: the error kind raised by the account service
(`WinixException` from the helpers module, which is not part of the
manager source): an authentication or network failure. -/
inductive WinixError where
  | auth (msg : String)
  | network (msg : String)
deriving DecidableEq

/-- Modelled from the spec: the Device Stub returned by the account
service — an immutable identity record with address (`mac`), display
alias, model name and firmware version. -/
structure DeviceStub where
  mac : String
  «alias» : String
  model : String
  sw_version : String
deriving DecidableEq

/-- Modelled from the spec: the Device Wrapper (external collaborator,
`device_wrapper.py` is not part of the manager source).  It holds a shared
network client, its Device Stub, and the most recently fetched state
snapshot, which starts absent until the first successful refresh. -/
structure WinixDeviceWrapper where
  client : Nat
  device_stub : DeviceStub
  state : Option DeviceState
deriving DecidableEq

/-- Modelled from the spec: `get_state` is the wrapper's synchronous state
accessor, returning the absent-or-present snapshot. -/
def WinixDeviceWrapper.get_state (w : WinixDeviceWrapper) : Option DeviceState :=
  w.state

/-- Modelled from the spec: the wrapper's asynchronous `update` refresh.
The outcome of the underlying network call is passed in explicitly; on
success the state snapshot is replaced by the newly fetched one, on
failure the error propagates and the snapshot is untouched. -/
def WinixDeviceWrapper.update (w : WinixDeviceWrapper)
    (result : Except WinixError DeviceState) : Except WinixError WinixDeviceWrapper :=
  match result with
  | .error e => .error e
  | .ok st => .ok { w with state := some st }

/-- Modelled from the spec: the integration's domain constant
(`WINIX_DOMAIN` from `const.py`, which is not part of the manager
source), used as the namespace of the entity identifier. -/
def WINIX_DOMAIN : String := "winix"

/-- Python's `str.lower()` as used on the stub address: lowercase each
character of the string. -/
def lower (s : String) : String :=
  String.mk (s.data.map Char.toLower)

/-- The fixed-shape device-metadata record (`DeviceInfo`) the entity
registers with the host: identifier set, display name, manufacturer,
model and firmware version. -/
structure DeviceInfo where
  identifiers : List (String × String)
  name : String
  manufacturer : String
  model : String
  sw_version : String
deriving DecidableEq

/-- The `WinixEntity` adapter: the fields its `__init__` computes once
from the wrapper's stub and caches (`_mac`, `_name`, `_device_info`),
plus the reference to the bound wrapper. -/
structure WinixEntity where
  _mac : String
  _wrapper : WinixDeviceWrapper
  _name : String
  _device_info : DeviceInfo
deriving DecidableEq

/-- `WinixEntity.__init__`: derive the lowercase address key, the display
name `"Winix " + alias`, and the static metadata record, all computed
from the stub at construction time. -/
def WinixEntity.init (wrapper : WinixDeviceWrapper) : WinixEntity :=
  let device_stub := wrapper.device_stub
  { _mac := lower device_stub.mac
    _wrapper := wrapper
    _name := "Winix " ++ device_stub.«alias»
    _device_info :=
      { identifiers := [(WINIX_DOMAIN, lower device_stub.mac)]
        name := "Winix " ++ device_stub.«alias»
        manufacturer := "Winix"
        model := device_stub.model
        sw_version := device_stub.sw_version } }

/-- `WinixEntity.name`: return the cached display name. -/
def WinixEntity.name (e : WinixEntity) : String :=
  e._name

/-- `WinixEntity.device_info`: return the cached metadata record. -/
def WinixEntity.device_info (e : WinixEntity) : DeviceInfo :=
  e._device_info

/-- `WinixEntity.available`: read the bound wrapper's current state and
return whether it is non-absent (`state is not None`). -/
def WinixEntity.available (e : WinixEntity) : Bool :=
  match e._wrapper.get_state with
  | none => false
  | some _ => true

/-- Modelled from the spec: the authentication response handed to the
manager at construction; only its access token is used. -/
structure WinixAuthResponse where
  access_token : String
deriving DecidableEq

/-- The `WinixManager` state: the wrapper collection (unset, i.e. `None`,
until a non-empty device list is seen), the stored auth response, and the
polling interval in seconds passed to the coordinator base class. -/
structure WinixManager where
  _device_wrappers : Option (List WinixDeviceWrapper)
  _auth_response : WinixAuthResponse
  update_interval : Nat
deriving DecidableEq

/-- `WinixManager.__init__`: the wrapper collection starts as `None`; the
auth response and scan interval are stored. -/
def WinixManager.init (auth_response : WinixAuthResponse)
    (scan_interval : Nat) : WinixManager :=
  { _device_wrappers := none
    _auth_response := auth_response
    update_interval := scan_interval }

/-- The construction loop of `async_prepare_devices_wrappers`: starting
from the empty list, append one fresh `WinixDeviceWrapper(client, stub)`
per device stub, in list order. -/
def buildWrappers (client : Nat) (device_stubs : List DeviceStub) :
    List WinixDeviceWrapper :=
  device_stubs.foldl
    (fun acc device_stub => acc ++ [⟨client, device_stub, none⟩]) []

/-- `WinixManager.async_prepare_devices_wrappers`: the account-service
call's outcome (a device-stub list, or a raised `WinixException`) and the
shared client session are passed in explicitly.  If the call raises, the
exception propagates and the manager is untouched.  If the returned list
is truthy (non-empty), the wrapper collection is replaced by one fresh
wrapper per stub; otherwise nothing is assigned.  Returns `True` whenever
the call did not raise. -/
def WinixManager.async_prepare_devices_wrappers (m : WinixManager)
    (client : Nat) (serviceResult : Except WinixError (List DeviceStub)) :
    WinixManager × Except WinixError Bool :=
  match serviceResult with
  | .error e => (m, .error e)
  | .ok device_stubs =>
    if device_stubs.isEmpty then
      (m, .ok true)
    else
      ({ m with _device_wrappers := some (buildWrappers client device_stubs) },
        .ok true)

/-- The error surfaced by a refresh cycle: either the Python `TypeError`
from iterating the unset (`None`) collection, or a propagated wrapper
refresh failure. -/
inductive UpdateError where
  | typeError
  | wrapperError (e : WinixError)
deriving DecidableEq

/-- The loop body of `async_update`: await each wrapper's `update` in
collection order; `env k` is the outcome of the k-th wrapper's network
call.  Returns the wrapper list after the cycle, the trace of positions
whose `update` was invoked, and the first failure if any (which stops the
loop). -/
def runUpdates (env : Nat → Except WinixError DeviceState) :
    List WinixDeviceWrapper → Nat →
    List WinixDeviceWrapper × List Nat × Option WinixError
  | [], _ => ([], [], none)
  | w :: ws, k =>
    match WinixDeviceWrapper.update w (env k) with
    | .error e => (w :: ws, [k], some e)
    | .ok w' =>
      let rest := runUpdates env ws (k + 1)
      (w' :: rest.1, k :: rest.2.1, rest.2.2)

/-- `WinixManager.async_update`: iterate the wrapper collection,
awaiting each wrapper's `update` in order.  Iterating `None` raises a
`TypeError` before any wrapper is invoked; a wrapper failure propagates
uncaught.  Returns the manager after the cycle, the invocation trace, and
the cycle's outcome. -/
def WinixManager.async_update (m : WinixManager)
    (env : Nat → Except WinixError DeviceState) :
    WinixManager × List Nat × Except UpdateError Unit :=
  match m._device_wrappers with
  | none => (m, [], .error .typeError)
  | some ws =>
    let r := runUpdates env ws 0
    ({ m with _device_wrappers := some r.1 }, r.2.1,
      match r.2.2 with
      | none => .ok ()
      | some e => .error (.wrapperError e))

/-- `WinixManager.get_device_wrappers`: return the current wrapper
collection by reference, unfiltered (possibly `None`). -/
def WinixManager.get_device_wrappers (m : WinixManager) :
    Option (List WinixDeviceWrapper) :=
  m._device_wrappers

/-- The operations an already-constructed manager can undergo, for
stating the phase-progression invariant. -/
inductive ManagerOp where
  | prepare (client : Nat) (res : Except WinixError (List DeviceStub))
  | update (env : Nat → Except WinixError DeviceState)
  | getWrappers

/-- The manager state after one operation (`get_device_wrappers` is a
pure accessor and leaves the state untouched). -/
def applyOp (m : WinixManager) : ManagerOp → WinixManager
  | .prepare c r => (m.async_prepare_devices_wrappers c r).1
  | .update env => (m.async_update env).1
  | .getWrappers => m

/-- The manager state after a sequence of operations. -/
def applyOps (m : WinixManager) (ops : List ManagerOp) : WinixManager :=
  ops.foldl applyOp m

/-! ## Concrete fixtures used to exercise the definitions -/

/-- A concrete device stub used in the concrete instantiations. -/
def sampleStub : DeviceStub :=
  ⟨"AA:BB:CC:DD:EE:FF", "Bedroom", "C545", "1.0"⟩

/-- Three fresh wrappers over the sample stub. -/
def sampleWrappers : List WinixDeviceWrapper :=
  [⟨0, sampleStub, none⟩, ⟨0, sampleStub, none⟩, ⟨0, sampleStub, none⟩]

/-- A manager whose collection holds the three sample wrappers. -/
def sampleManager : WinixManager :=
  ⟨some sampleWrappers, ⟨"token"⟩, 30⟩

/-- A refresh environment in which every network call succeeds. -/
def envOk : Nat → Except WinixError DeviceState :=
  fun _ => .ok []

/-- A refresh environment whose second call (position 1) fails. -/
def envFailAt1 : Nat → Except WinixError DeviceState :=
  fun j => if j = 1 then .error (.network "boom") else .ok []

/-! ## Helper lemmas -/

lemma foldl_append_singleton (f : DeviceStub → WinixDeviceWrapper)
    (l : List DeviceStub) (acc : List WinixDeviceWrapper) :
    l.foldl (fun a s => a ++ [f s]) acc = acc ++ l.map f := by
  induction l generalizing acc with
  | nil => simp
  | cons s l ih => simp [List.foldl_cons, ih]

lemma buildWrappers_eq_map (client : Nat) (stubs : List DeviceStub) :
    buildWrappers client stubs = stubs.map (fun s => ⟨client, s, none⟩) := by
  simpa using foldl_append_singleton (fun s => ⟨client, s, none⟩) stubs []

lemma prepare_error_eq (m : WinixManager) (client : Nat) (e : WinixError) :
    m.async_prepare_devices_wrappers client (.error e) = (m, .error e) := rfl

lemma prepare_empty_eq (m : WinixManager) (client : Nat) :
    m.async_prepare_devices_wrappers client (.ok []) = (m, .ok true) := rfl

lemma prepare_nonempty_eq (m : WinixManager) (client : Nat)
    (stubs : List DeviceStub) (h : stubs ≠ []) :
    m.async_prepare_devices_wrappers client (.ok stubs) =
      ({ m with _device_wrappers := some (buildWrappers client stubs) }, .ok true) := by
  simp [WinixManager.async_prepare_devices_wrappers, List.isEmpty_iff, h]

/-! ## Claim theorems -/

/-- C3: if the account-service call raises during prepare, the error
propagates out of prepare unchanged and the manager — in particular its
wrapper collection — is exactly what it was before the call. -/
theorem prepare_service_error_propagates (m : WinixManager) (client : Nat)
    (e : WinixError) :
    m.async_prepare_devices_wrappers client (.error e) = (m, .error e) :=
  prepare_error_eq m client e

/-- C8: whenever the account-service call completes without raising,
prepare returns the success indicator `true`, whether the returned
device-stub list is empty or not. -/
theorem prepare_returns_true (m : WinixManager) (client : Nat)
    (stubs : List DeviceStub) :
    (m.async_prepare_devices_wrappers client (.ok stubs)).2 = .ok true := by
  rcases stubs with _ | ⟨s, rest⟩
  · rfl
  · rw [prepare_nonempty_eq m client (s :: rest) (by simp)]

/-- C1 counterexample: on a fresh manager, a prepare that receives the
empty device-stub list succeeds but leaves the wrapper collection unset
(`None`); it is not set to an empty collection, refuting the claim as
stated. -/
theorem prepare_empty_leaves_unset_cex :
    letI m := WinixManager.init ⟨"token"⟩ 30
    (m.async_prepare_devices_wrappers 0 (.ok [])).2 = .ok true ∧
    ((m.async_prepare_devices_wrappers 0 (.ok [])).1)._device_wrappers = none ∧
    ((m.async_prepare_devices_wrappers 0 (.ok [])).1)._device_wrappers ≠
      some [] := by
  refine ⟨rfl, rfl, by simp [WinixManager.async_prepare_devices_wrappers, WinixManager.init]⟩

/-- C1 amended: if the account service returns an empty device-stub list,
prepare succeeds (returns `true`) and the manager is left completely
unchanged — in particular the wrapper collection stays unset (`None`)
when prepare is the first call, rather than being set to an empty
collection. -/
theorem prepare_empty_succeeds_unchanged (m : WinixManager) (client : Nat) :
    m.async_prepare_devices_wrappers client (.ok []) = (m, .ok true) ∧
    ∀ auth_response si,
      ((WinixManager.init auth_response si).async_prepare_devices_wrappers
          client (.ok [])).1._device_wrappers = none :=
  ⟨prepare_empty_eq m client, fun _ _ => rfl⟩

/-- C2: for every non-empty device-stub list, prepare succeeds and the
resulting wrapper collection holds exactly one fresh wrapper per stub,
each bound to the stub in the same position (with the shared client and
an absent state), preserving the order of the stub list. -/
theorem prepare_nonempty_one_wrapper_per_stub (m : WinixManager)
    (client : Nat) (stubs : List DeviceStub) (h : stubs ≠ []) :
    (m.async_prepare_devices_wrappers client (.ok stubs)).2 = .ok true ∧
    ∃ ws, (m.async_prepare_devices_wrappers client (.ok stubs)).1._device_wrappers
            = some ws ∧
      ws.length = stubs.length ∧
      ∀ i (h1 : i < ws.length) (h2 : i < stubs.length),
        (ws.get ⟨i, h1⟩).device_stub = stubs.get ⟨i, h2⟩ ∧
        (ws.get ⟨i, h1⟩).client = client ∧
        (ws.get ⟨i, h1⟩).state = none := by
  rw [prepare_nonempty_eq m client stubs h, buildWrappers_eq_map]
  refine ⟨rfl, stubs.map (fun s => ⟨client, s, none⟩), rfl, by simp, ?_⟩
  intro i h1 h2
  simp

/-- C2 witness: instantiated at a concrete two-stub list. -/
theorem prepare_nonempty_one_wrapper_per_stub_witness :
    letI stubA : DeviceStub := ⟨"AA:BB:CC:DD:EE:FF", "Bedroom", "C545", "1.0"⟩
    letI stubB : DeviceStub := ⟨"11:22:33:44:55:66", "Office", "C545", "1.2"⟩
    letI m := WinixManager.init ⟨"token"⟩ 30
    (m.async_prepare_devices_wrappers 7 (.ok [stubA, stubB])).2 = .ok true ∧
    ∃ ws, (m.async_prepare_devices_wrappers 7 (.ok [stubA, stubB])).1._device_wrappers
            = some ws ∧
      ws.length = [stubA, stubB].length ∧
      ∀ i (h1 : i < ws.length) (h2 : i < [stubA, stubB].length),
        (ws.get ⟨i, h1⟩).device_stub = [stubA, stubB].get ⟨i, h2⟩ ∧
        (ws.get ⟨i, h1⟩).client = 7 ∧
        (ws.get ⟨i, h1⟩).state = none :=
  prepare_nonempty_one_wrapper_per_stub (WinixManager.init ⟨"token"⟩ 30) 7
    [⟨"AA:BB:CC:DD:EE:FF", "Bedroom", "C545", "1.0"⟩,
     ⟨"11:22:33:44:55:66", "Office", "C545", "1.2"⟩] (by simp)

/-- C10: a prepare that receives the empty list leaves the whole manager
exactly as it was, and in all cases prepare modifies no field of the
manager other than the wrapper collection. -/
theorem prepare_frame (m : WinixManager) (client : Nat)
    (res : Except WinixError (List DeviceStub)) :
    m.async_prepare_devices_wrappers client (.ok []) = (m, .ok true) ∧
    (m.async_prepare_devices_wrappers client res).1._auth_response =
      m._auth_response ∧
    (m.async_prepare_devices_wrappers client res).1.update_interval =
      m.update_interval := by
  refine ⟨prepare_empty_eq m client, ?_, ?_⟩ <;>
    rcases res with e | stubs <;>
    first
      | rfl
      | (rcases stubs with _ | ⟨s, rest⟩
         · rfl
         · rw [prepare_nonempty_eq m client (s :: rest) (by simp)])

/-- C4: `available` is true iff the bound wrapper's current state
snapshot is non-absent; it is false for a freshly constructed adapter
whose wrapper has never refreshed, and true once a successful wrapper
refresh has populated the state. -/
theorem entity_available_iff_state (e : WinixEntity) (client : Nat)
    (stub : DeviceStub) (st : DeviceState) (w' : WinixDeviceWrapper) :
    (e.available = true ↔ e._wrapper.get_state ≠ none) ∧
    (WinixEntity.init ⟨client, stub, none⟩).available = false ∧
    (e._wrapper.update (.ok st) = .ok w' →
      ({ e with _wrapper := w' }).available = true) := by
  refine ⟨?_, rfl, ?_⟩
  · cases h : e._wrapper.state <;>
      simp [WinixEntity.available, WinixDeviceWrapper.get_state, h]
  · intro h
    have hw : { e._wrapper with state := some st } = w' := by
      simpa [WinixDeviceWrapper.update] using h
    rw [← hw]
    simp [WinixEntity.available, WinixDeviceWrapper.get_state]

/-- C4 witness: a concrete fresh adapter is unavailable and becomes
available after one successful refresh of its wrapper. -/
theorem entity_available_iff_state_witness :
    ((WinixEntity.init ⟨0, ⟨"AA:BB:CC:DD:EE:FF", "Bedroom", "C545", "1.0"⟩, none⟩).available
        = true ↔
      (WinixEntity.init ⟨0, ⟨"AA:BB:CC:DD:EE:FF", "Bedroom", "C545", "1.0"⟩, none⟩)._wrapper.get_state
        ≠ none) ∧
    (WinixEntity.init ⟨0, ⟨"AA:BB:CC:DD:EE:FF", "Bedroom", "C545", "1.0"⟩, none⟩).available
        = false ∧
    ({ WinixEntity.init ⟨0, ⟨"AA:BB:CC:DD:EE:FF", "Bedroom", "C545", "1.0"⟩, none⟩ with
        _wrapper := ⟨0, ⟨"AA:BB:CC:DD:EE:FF", "Bedroom", "C545", "1.0"⟩,
          some [("power", "on")]⟩ }).available = true := by
  have h := entity_available_iff_state
    (WinixEntity.init ⟨0, ⟨"AA:BB:CC:DD:EE:FF", "Bedroom", "C545", "1.0"⟩, none⟩)
    0 ⟨"AA:BB:CC:DD:EE:FF", "Bedroom", "C545", "1.0"⟩ [("power", "on")]
    ⟨0, ⟨"AA:BB:CC:DD:EE:FF", "Bedroom", "C545", "1.0"⟩, some [("power", "on")]⟩
  exact ⟨h.1, h.2.1, h.2.2 rfl⟩

/-- C6: an adapter constructed from a wrapper caches name
`"Winix " + alias`, the lowercase address key, and the metadata record
(identifiers, name, manufacturer `"Winix"`, model, firmware version);
replacing the bound wrapper afterwards (modelling mutation of the stub
object) changes none of them, and the concrete example stub yields name
`"Winix Bedroom"` and key `"aa:bb:cc:dd:ee:ff"`. -/
theorem entity_identity_cached (w w' : WinixDeviceWrapper) :
    (WinixEntity.init w).name = "Winix " ++ w.device_stub.«alias» ∧
    (WinixEntity.init w)._mac = lower w.device_stub.mac ∧
    (WinixEntity.init w).device_info =
      ⟨[(WINIX_DOMAIN, lower w.device_stub.mac)],
        "Winix " ++ w.device_stub.«alias», "Winix",
        w.device_stub.model, w.device_stub.sw_version⟩ ∧
    ({ WinixEntity.init w with _wrapper := w' }).name =
      (WinixEntity.init w).name ∧
    ({ WinixEntity.init w with _wrapper := w' }).device_info =
      (WinixEntity.init w).device_info ∧
    ({ WinixEntity.init w with _wrapper := w' })._mac =
      (WinixEntity.init w)._mac ∧
    (WinixEntity.init ⟨0, ⟨"AA:BB:CC:DD:EE:FF", "Bedroom", "C545", "1.0"⟩, none⟩).name
      = "Winix Bedroom" ∧
    (WinixEntity.init ⟨0, ⟨"AA:BB:CC:DD:EE:FF", "Bedroom", "C545", "1.0"⟩, none⟩)._mac
      = "aa:bb:cc:dd:ee:ff" :=
  ⟨rfl, rfl, rfl, rfl, rfl, rfl, by decide, by decide⟩

/-! ## Refresh-cycle lemmas -/

lemma runUpdates_all_ok (ws : List WinixDeviceWrapper)
    (env : Nat → Except WinixError DeviceState) (k : Nat)
    (h : ∀ j, j < ws.length → ∃ s, env (k + j) = .ok s) :
    (runUpdates env ws k).2.1 = List.range' k ws.length ∧
    (runUpdates env ws k).2.2 = none := by
  induction ws generalizing k with
  | nil => exact ⟨rfl, rfl⟩
  | cons w ws ih =>
    obtain ⟨s, hs⟩ := h 0 (Nat.succ_pos ws.length)
    rw [Nat.add_zero] at hs
    have ih' := ih (k + 1) (fun j hj => by
      have e1 : k + 1 + j = k + (j + 1) := by omega
      rw [e1]
      exact h (j + 1) (Nat.succ_lt_succ hj))
    simp only [runUpdates, hs, WinixDeviceWrapper.update, List.length_cons]
    rw [List.range'_succ]
    exact ⟨by rw [ih'.1], ih'.2⟩

lemma runUpdates_first_error (ws : List WinixDeviceWrapper)
    (env : Nat → Except WinixError DeviceState) (k i : Nat) (e : WinixError)
    (hi : i < ws.length) (he : env (k + i) = .error e)
    (h : ∀ j, j < i → ∃ s, env (k + j) = .ok s) :
    (runUpdates env ws k).2.1 = List.range' k (i + 1) ∧
    (runUpdates env ws k).2.2 = some e := by
  induction ws generalizing k i with
  | nil => exact absurd hi (Nat.not_lt_zero i)
  | cons w ws ih =>
    cases i with
    | zero =>
      rw [Nat.add_zero] at he
      simp only [runUpdates, he, WinixDeviceWrapper.update]
      rw [List.range'_succ]
      exact ⟨rfl, trivial⟩
    | succ i =>
      obtain ⟨s, hs⟩ := h 0 (Nat.succ_pos i)
      rw [Nat.add_zero] at hs
      have ih' := ih (k + 1) i (Nat.lt_of_succ_lt_succ hi)
        (by
          have e1 : k + 1 + i = k + (i + 1) := by omega
          rw [e1]
          exact he)
        (fun j hj => by
          have e1 : k + 1 + j = k + (j + 1) := by omega
          rw [e1]
          exact h (j + 1) (Nat.succ_lt_succ hj))
      simp only [runUpdates, hs, WinixDeviceWrapper.update]
      rw [List.range'_succ]
      exact ⟨by rw [ih'.1], ih'.2⟩

lemma async_update_some (m : WinixManager) (ws : List WinixDeviceWrapper)
    (env : Nat → Except WinixError DeviceState)
    (hw : m._device_wrappers = some ws) :
    m.async_update env =
      ({ m with _device_wrappers := some (runUpdates env ws 0).1 },
        (runUpdates env ws 0).2.1,
        match (runUpdates env ws 0).2.2 with
        | none => .ok ()
        | some e => .error (.wrapperError e)) := by
  simp [WinixManager.async_update, hw]

/-- C5: a refresh cycle invokes each wrapper's refresh exactly once, in
collection order (the invocation trace is `[0, 1, …]`), awaiting each
before the next: if every refresh succeeds each position is visited
exactly once in order, and if the refresh at position k is the first to
fail, positions after k are never invoked in that cycle and the error
propagates uncaught out of the cycle. -/
theorem async_update_sequential (m : WinixManager)
    (ws : List WinixDeviceWrapper) (env : Nat → Except WinixError DeviceState)
    (hw : m._device_wrappers = some ws) :
    ((∀ j, j < ws.length → ∃ s, env j = .ok s) →
      (m.async_update env).2.1 = List.range ws.length ∧
      (m.async_update env).2.2 = .ok ()) ∧
    (∀ k e, k < ws.length → env k = .error e →
      (∀ j, j < k → ∃ s, env j = .ok s) →
      (m.async_update env).2.1 = List.range (k + 1) ∧
      (m.async_update env).2.2 = .error (.wrapperError e)) := by
  rw [async_update_some m ws env hw]
  constructor
  · intro h
    have hr := runUpdates_all_ok ws env 0 (fun j hj => by
      rw [Nat.zero_add]
      exact h j hj)
    rw [List.range_eq_range']
    exact ⟨hr.1, by rw [hr.2]⟩
  · intro k e hk he h
    have hr := runUpdates_first_error ws env 0 k e hk
      (by rw [Nat.zero_add]; exact he)
      (fun j hj => by rw [Nat.zero_add]; exact h j hj)
    rw [List.range_eq_range']
    exact ⟨hr.1, by rw [hr.2]⟩

/-- C5 witness: on the three-wrapper sample manager, an all-success cycle
visits positions 0, 1, 2 in order; a cycle whose refresh at position 1
fails visits only positions 0 and 1 and surfaces that wrapper's error. -/
theorem async_update_sequential_witness :
    ((sampleManager.async_update envOk).2.1 = List.range 3 ∧
      (sampleManager.async_update envOk).2.2 = .ok ()) ∧
    ((sampleManager.async_update envFailAt1).2.1 = List.range 2 ∧
      (sampleManager.async_update envFailAt1).2.2 =
        .error (.wrapperError (.network "boom"))) := by
  constructor
  · exact (async_update_sequential sampleManager sampleWrappers envOk rfl).1
      (fun j _ => ⟨[], rfl⟩)
  · exact (async_update_sequential sampleManager sampleWrappers envFailAt1 rfl).2
      1 (.network "boom") (by decide) rfl
      (fun j hj => ⟨[], by
        match j, hj with
        | 0, _ => rfl⟩)

/-! ## Phase-progression lemmas -/

lemma applyOp_preserves_isSome (m : WinixManager) (op : ManagerOp)
    (h : m._device_wrappers.isSome = true) :
    ((applyOp m op)._device_wrappers).isSome = true := by
  cases op with
  | prepare c r =>
    rcases r with e | stubs
    · exact h
    · rcases stubs with _ | ⟨s, rest⟩
      · exact h
      · rw [applyOp, prepare_nonempty_eq m c (s :: rest) (by simp)]
        rfl
  | update env =>
    rcases hw : m._device_wrappers with _ | ws
    · rw [hw] at h
      exact absurd h (by simp)
    · rw [applyOp, async_update_some m ws env hw]
      rfl
  | getWrappers => exact h

lemma applyOp_unset_not_prepare (m : WinixManager) (op : ManagerOp)
    (hm : m._device_wrappers = none)
    (h : ((applyOp m op)._device_wrappers).isSome = true) :
    ∃ c r, op = ManagerOp.prepare c r := by
  cases op with
  | prepare c r => exact ⟨c, r, rfl⟩
  | update env =>
    rw [applyOp, WinixManager.async_update, hm] at h
    rw [hm] at h
    exact absurd h (by simp)
  | getWrappers =>
    rw [applyOp, hm] at h
    exact absurd h (by simp)

/-- C7: the manager's phase progression is monotone — a freshly
constructed manager has its wrapper collection unset; starting from an
unset collection only a prepare operation can make it set; and once the
collection is set, no sequence of prepare / refresh / accessor operations
ever returns it to the unset state. -/
theorem manager_phase_monotone (auth_response : WinixAuthResponse) (si : Nat)
    (m₁ m₂ : WinixManager) (op : ManagerOp) (ops : List ManagerOp) :
    (WinixManager.init auth_response si)._device_wrappers = none ∧
    (m₁._device_wrappers.isSome = true →
      ((applyOps m₁ ops)._device_wrappers).isSome = true) ∧
    (m₂._device_wrappers = none →
      ((applyOp m₂ op)._device_wrappers).isSome = true →
      ∃ c r, op = ManagerOp.prepare c r) := by
  refine ⟨rfl, ?_, applyOp_unset_not_prepare m₂ op⟩
  intro h
  induction ops generalizing m₁ with
  | nil => exact h
  | cons op' ops ih =>
    exact ih (applyOp m₁ op') (applyOp_preserves_isSome m₁ op' h)

/-- C7 witness: on concrete managers — one already holding the sample
collection, one freshly constructed — the phase facts instantiate: the
fresh manager is unset, the ready manager stays ready across a concrete
operation sequence, and the only concrete operation that readies the
fresh manager is a prepare. -/
theorem manager_phase_monotone_witness :
    (WinixManager.init ⟨"token"⟩ 30)._device_wrappers = none ∧
    ((applyOps sampleManager
        [ManagerOp.getWrappers, ManagerOp.prepare 0 (.ok []),
         ManagerOp.update envOk])._device_wrappers).isSome = true ∧
    (∃ c r, ManagerOp.prepare 0 (.ok [sampleStub]) = ManagerOp.prepare c r) := by
  have h := manager_phase_monotone ⟨"token"⟩ 30 sampleManager
    (WinixManager.init ⟨"token"⟩ 30) (ManagerOp.prepare 0 (.ok [sampleStub]))
    [ManagerOp.getWrappers, ManagerOp.prepare 0 (.ok []), ManagerOp.update envOk]
  exact ⟨h.1, h.2.1 rfl, h.2.2 rfl rfl⟩

/-! ## Empty-prepare fold lemma -/

lemma foldl_prepare_empty (clients : List Nat) (m : WinixManager) :
    clients.foldl
      (fun m c => (m.async_prepare_devices_wrappers c (.ok [])).1) m = m := by
  induction clients generalizing m with
  | nil => rfl
  | cons c rest ih => exact ih m

/-- C9: if the wrapper collection has never been assigned — prepare was
never run, or every prepare so far received an empty device-stub list —
a refresh cycle does not succeed over zero devices: it invokes no
wrapper and fails with the `TypeError` from iterating the unset (`None`)
collection, leaving the manager unchanged. -/
theorem update_unset_type_error (auth_response : WinixAuthResponse) (si : Nat)
    (clients : List Nat) (env : Nat → Except WinixError DeviceState) :
    letI m := clients.foldl
      (fun m c => (m.async_prepare_devices_wrappers c (.ok [])).1)
      (WinixManager.init auth_response si)
    m.async_update env = (m, [], .error UpdateError.typeError) := by
  rw [foldl_prepare_empty]
  rfl
